import Mathlib

/-!
Verification development for the polymarket-executor repository.

The TypeScript sources are shallowly embedded in Lean:
JavaScript strings become `List Char`, the module-level mutable caches of
`polymarketClob.ts` become an explicit `ExecState` record threaded through the
operations, big-integer wei balances become `Nat`, fallible operations return
`Except`, and the external libraries (keccak hashing, the ethers address
computation, the remote CLOB credential endpoint) become explicit function or
data parameters.
-/

/-- JavaScript strings are modelled as lists of characters. -/
abbrev JStr := List Char

/-- Model of the JavaScript `String.prototype.trim` used throughout the source:
drop whitespace from both ends of the string. -/
def trimList (l : JStr) : JStr :=
  ((l.dropWhile Char.isWhitespace).reverse.dropWhile Char.isWhitespace).reverse

/-! ## Gas custodian (`ensureGasBalance`, `polymarketClob.ts` lines 467-521) -/

/-- Embeds `MATIC_TOP_UP_THRESHOLD_WEI = ethers.utils.parseEther('0.1')`. -/
def MATIC_TOP_UP_THRESHOLD_WEI : Nat := 100000000000000000

/-- Embeds `MATIC_TOP_UP_AMOUNT_WEI = ethers.utils.parseEther('0.5')`. -/
def MATIC_TOP_UP_AMOUNT_WEI : Nat := 500000000000000000

/-- Embeds `MASTER_WALLET_MIN_BALANCE_WEI = ethers.utils.parseEther('10')`. -/
def MASTER_WALLET_MIN_BALANCE_WEI : Nat := 10000000000000000000

/-- Point-in-time snapshot of the two native-token balances read by
`ensureGasBalance`: the tenant's derived address and the master wallet. -/
structure GasState where
  userBalance : Nat
  masterBalance : Nat
deriving DecidableEq

/-- Typed error for `ensureGasBalance`; `InsufficientMasterFunds` names the
`throw new Error('CRITICAL: Master wallet has insufficient MATIC ...')` at
line 500 of `polymarketClob.ts`. -/
inductive GasError
  | InsufficientMasterFunds
deriving DecidableEq

/-- Embeds `ensureGasBalance` (`polymarketClob.ts` lines 475-521).  The code
reads the tenant balance; if it is `lt` the threshold it reads the master
balance, throws when the master balance is `lt` the top-up amount, and
otherwise sends one transaction of `MATIC_TOP_UP_AMOUNT_WEI` from the master
wallet to the tenant address and waits for it.  The returned list holds the
amounts of the transfers performed; the returned state holds the balances
after those transfers. -/
def ensureGasBalance (s : GasState) : GasState × Except GasError (List Nat) :=
  if s.userBalance < MATIC_TOP_UP_THRESHOLD_WEI then
    if s.masterBalance < MATIC_TOP_UP_AMOUNT_WEI then
      (s, Except.error GasError.InsufficientMasterFunds)
    else
      ({ userBalance := s.userBalance + MATIC_TOP_UP_AMOUNT_WEI,
         masterBalance := s.masterBalance - MATIC_TOP_UP_AMOUNT_WEI },
       Except.ok [MATIC_TOP_UP_AMOUNT_WEI])
  else (s, Except.ok [])

/-! ## Credentials (`polymarketClob.ts` lines 12-81) -/

/-- Embeds the `ApiCreds` type (lines 12-16): the key, secret and passphrase
triple the clob-client expects. -/
structure ApiCreds where
  key : JStr
  secret : JStr
  passphrase : JStr
deriving DecidableEq

/-- Raw remote response shape accepted by `coerceApiCreds`; each field is
`none` when absent or not a string in the response object. -/
structure RawCreds where
  key : Option JStr
  apiKey : Option JStr
  secret : Option JStr
  passphrase : Option JStr
deriving DecidableEq

/-- Typed errors of the credential path: the four `throw new Error(...)` sites
of `coerceApiCreds` (lines 29-36) plus a transport failure of the remote
`createOrDeriveApiKey` call. -/
inductive CredError
  | notAnObject
  | missingKey
  | missingSecret
  | missingPassphrase
  | transport
deriving DecidableEq

/-- Embeds `normalizeBase64ForAtob` (lines 21-26): trim, turn the URL-safe
characters into their standard base64 counterparts, and pad with `=` to a
multiple of four. -/
def mapB64Char (c : Char) : Char :=
  if c = '-' then '+' else if c = '_' then '/' else c

/-- Embeds `normalizeBase64ForAtob` (lines 21-26), written without local
bindings: `base64 + '='.repeat((4 - base64.length % 4) % 4)` where `base64`
is the trimmed input with `-` replaced by `+` and `_` by `/`. -/
def normalizeBase64ForAtob (input : JStr) : JStr :=
  (trimList input).map mapB64Char ++
    List.replicate ((4 - ((trimList input).map mapB64Char).length % 4) % 4) '='

/-- Standard base64 alphabet character (letters, digits, `+`, `/`), used to
state which secrets count as standard base64 in the normalization claim. -/
def isStdB64Char (c : Char) : Bool :=
  c.isAlphanum || c = '+' || c = '/'

/-- The URL-safe re-encoding of a standard base64 character, used only to
state the normalization claim: URL-safe base64 writes `+` as `-` and `/` as
`_` (and drops the `=` padding, expressed in the claim by mapping the
unpadded body). -/
def toUrlSafeChar (c : Char) : Char :=
  if c = '+' then '-' else if c = '/' then '_' else c

/-- Embeds `coerceApiCreds` (lines 28-43): `none` stands for a non-object
response; the key falls back to the `apiKey` field; key, secret and
passphrase must be present and nonempty after trimming; the key and
passphrase are stored trimmed and the secret is stored base64-normalized. -/
def coerceApiCreds (raw : Option RawCreds) : Except CredError ApiCreds :=
  match raw with
  | none => Except.error CredError.notAnObject
  | some r =>
      match (match r.key with | some kk => some kk | none => r.apiKey) with
      | none => Except.error CredError.missingKey
      | some kk =>
          if trimList kk = [] then Except.error CredError.missingKey
          else match r.secret with
            | none => Except.error CredError.missingSecret
            | some sec =>
                if trimList sec = [] then Except.error CredError.missingSecret
                else match r.passphrase with
                  | none => Except.error CredError.missingPassphrase
                  | some pp =>
                      if trimList pp = [] then Except.error CredError.missingPassphrase
                      else Except.ok
                        { key := trimList kk,
                          secret := normalizeBase64ForAtob sec,
                          passphrase := trimList pp }

/-! ## Derivation, caches and the signing adapter
(`polymarketClob.ts` lines 211-405) -/

/-- Type of the external keccak-based hash used by
`ethers.utils.solidityKeccak256(['bytes32','string'], [MASTER_PRIVATE_KEY, phone])`:
a pure function of the master secret and the tenant identifier producing a
32-byte (hence < 2^256) value.  It is a parameter of the development because
the hash itself lives in the ethers library, outside this repository. -/
abbrev KeccakFn := JStr → JStr → Fin (2 ^ 256)

/-- Module-level mutable state of `polymarketClob.ts`: the per-tenant SDK
cache (`sdkCache`, an SDK being determined by the derived private key it was
built from), the per-tenant credential cache (`apiCredsCache`), plus two
instrumentation counters: how many times the key-derivation logic
(`deriveUserPrivateKey`) ran and how many times the remote
`createOrDeriveApiKey` endpoint was invoked. -/
structure ExecState where
  sdkCache : JStr → Option (Fin (2 ^ 256))
  apiCredsCache : JStr → Option ApiCreds
  deriveCount : Nat
  remoteCount : Nat

/-- State at process start: both caches empty, no derivations or remote calls
performed yet. -/
def initialExecState : ExecState :=
  { sdkCache := fun _ => none,
    apiCredsCache := fun _ => none,
    deriveCount := 0,
    remoteCount := 0 }

/-- Embeds `deriveUserPrivateKey` (lines 233-242): the deterministic seed
`solidityKeccak256(['bytes32','string'], [MASTER_PRIVATE_KEY, phone])`,
returned directly as the derived private key.  A pure function: it reads and
writes no cache and performs no I/O. -/
def deriveUserPrivateKey (keccak : KeccakFn) (masterKey phone : JStr) :
    Fin (2 ^ 256) :=
  keccak masterKey phone

/-- Model of an `ethers.Wallet`, determined by the private key it was
constructed from. -/
structure EthersWallet where
  privateKey : Fin (2 ^ 256)
deriving DecidableEq

/-- Resolved address of an `ethers.Wallet`; `addrOf` is the (pure, external)
ethers computation from a private key to its address. -/
def walletGetAddress (addrOf : Fin (2 ^ 256) → JStr) (w : EthersWallet) : JStr :=
  addrOf w.privateKey

/-- Embeds `getThirdwebSigner` (lines 397-405): derives the user private key
(incrementing the derivation counter — the function consults no cache) and
constructs a fresh `ethers.Wallet` from it. -/
def getThirdwebSigner (keccak : KeccakFn) (masterKey phone : JStr)
    (s : ExecState) : EthersWallet × ExecState :=
  (⟨deriveUserPrivateKey keccak masterKey phone⟩,
   { s with deriveCount := s.deriveCount + 1 })

/-- Embeds `getSDKForUser` (lines 248-258): on a cache miss it derives the
user private key (incrementing the derivation counter) and stores the SDK
built from it in `sdkCache`; on a hit it returns the cached SDK unchanged. -/
def getSDKForUser (keccak : KeccakFn) (masterKey phone : JStr)
    (s : ExecState) : Fin (2 ^ 256) × ExecState :=
  match s.sdkCache phone with
  | some sdk => (sdk, s)
  | none =>
      let key := deriveUserPrivateKey keccak masterKey phone
      (key, { s with
              sdkCache := fun q => if q = phone then some key else s.sdkCache q,
              deriveCount := s.deriveCount + 1 })

/-- Heap state of a `ThirdwebSigner` instance (lines 313-343): the tenant
identifier, the SDK obtained in the constructor, the public synchronous
`address` field (an empty string until the background promise writes it) and
the private `_address` field (`null` until resolved). -/
structure ThirdwebSignerObj where
  phone : JStr
  sdkKey : Fin (2 ^ 256)
  addressSync : JStr
  addressResolved : Option JStr

/-- Embeds the `ThirdwebSigner` constructor (lines 319-343): it stores the
per-user SDK from `getSDKForUser`, sets the public `address` field to the
empty string and `_address` to `null`, and only schedules (does not await)
the background promise that will later fill both fields. -/
def mkThirdwebSigner (keccak : KeccakFn) (masterKey phone : JStr)
    (s : ExecState) : ThirdwebSignerObj × ExecState :=
  ((fun r => ⟨phone, r.1, [], none⟩) (getSDKForUser keccak masterKey phone s),
   (getSDKForUser keccak masterKey phone s).2)

/-- Completion of the background promise scheduled by the constructor
(lines 328-334): writes the resolved address into both the public `address`
field and the private `_address` field. -/
def resolveAddressStep (addrOf : Fin (2 ^ 256) → JStr)
    (o : ThirdwebSignerObj) : ThirdwebSignerObj :=
  { o with
    addressSync := addrOf o.sdkKey,
    addressResolved := some (addrOf o.sdkKey) }

/-- Embeds `getApiCreds` (lines 50-81).  On a cache hit the cached credential
is returned with no remote call.  On a miss the code obtains a signer via
`getThirdwebSigner`, invokes the remote `createOrDeriveApiKey` endpoint
(`remote` is that endpoint's response for this attempt, `none` standing for a
transport failure), coerces the response, caches a success per tenant, and on
any failure deletes the tenant's cache entry and rethrows. -/
def getApiCreds (keccak : KeccakFn) (masterKey : JStr)
    (remote : Option RawCreds) (phone : JStr) (s : ExecState) :
    Except CredError ApiCreds × ExecState :=
  match s.apiCredsCache phone with
  | some creds => (Except.ok creds, s)
  | none =>
      let s1 := (getThirdwebSigner keccak masterKey phone s).2
      let s2 := { s1 with remoteCount := s1.remoteCount + 1 }
      match remote with
      | none =>
          (Except.error CredError.transport,
           { s2 with apiCredsCache :=
               fun q => if q = phone then none else s2.apiCredsCache q })
      | some raw =>
          match coerceApiCreds (some raw) with
          | Except.error e =>
              (Except.error e,
               { s2 with apiCredsCache :=
                   fun q => if q = phone then none else s2.apiCredsCache q })
          | Except.ok creds =>
              (Except.ok creds,
               { s2 with apiCredsCache :=
                   fun q => if q = phone then some creds else s2.apiCredsCache q })

/-- Concrete stand-in for the external keccak hash, used to run the model on
concrete inputs in witnesses and counterexamples. -/
def keccakModel : KeccakFn := fun m p =>
  ⟨(m.length * 31 + p.length * 7 + 1) % 2 ^ 256, Nat.mod_lt _ (by norm_num)⟩

/-! ## Gamma top markets (`polymarketGamma.ts` lines 37-73) -/

/-- A JavaScript number as it reaches `gammaTopMarkets`: either `NaN`
(a non-numeric `limit` query parameter) or an integer value. -/
inductive JSNum
  | nan
  | num (v : Int)
deriving DecidableEq

/-- Embeds `Number(limit) || 10`: `NaN` and `0` are falsy and fall back to
the default of 10; every other number is kept. -/
def jsNumOrTen : JSNum → Int
  | JSNum.nan => 10
  | JSNum.num v => if v = 0 then 10 else v

/-- Embeds `Math.max(1, Math.min(50, Number(limit) || 10))` from line 38. -/
def gammaSafeLimit (limit : JSNum) : Int :=
  max 1 (min 50 (jsNumOrTen limit))

/-- Market object inside a Gamma event, with the fields read by the
flattening loop of `gammaTopMarkets` (lines 53-68). -/
structure GammaMarket where
  id : JStr
  question : JStr
  slug : JStr
  active : Bool
  endDate : JStr
  outcomes : JStr
  outcomePrices : JStr
  clobTokenIds : JStr
  volume : JStr
  liquidity : JStr

/-- Gamma event as returned by the remote `/events` query; `markets` is
`none` when the field is absent or not an array
(`Array.isArray(ev?.markets) ? ev.markets : []`, line 52). -/
structure GammaEvent where
  id : JStr
  title : JStr
  slug : JStr
  markets : Option (List GammaMarket)

/-- Flattened record pushed by the loop body of `gammaTopMarkets`
(lines 54-68). -/
structure FlatMarket where
  eventId : JStr
  eventTitle : JStr
  eventSlug : JStr
  id : JStr
  question : JStr
  slug : JStr
  active : Bool
  endDate : JStr
  outcomes : JStr
  outcomePrices : JStr
  clobTokenIds : JStr
  volume : JStr
  liquidity : JStr

/-- The flattening double loop of `gammaTopMarkets` (lines 50-70). -/
def flattenEvents (events : List GammaEvent) : List FlatMarket :=
  events.flatMap fun ev =>
    (ev.markets.getD []).map fun mk =>
      { eventId := ev.id, eventTitle := ev.title, eventSlug := ev.slug,
        id := mk.id, question := mk.question, slug := mk.slug,
        active := mk.active, endDate := mk.endDate, outcomes := mk.outcomes,
        outcomePrices := mk.outcomePrices, clobTokenIds := mk.clobTokenIds,
        volume := mk.volume, liquidity := mk.liquidity }

/-- Embeds `gammaTopMarkets` (lines 37-73): clamp the limit, fetch `/events`
(`events` is the remote response, a free parameter of the model), flatten the
markets of every event, and return `markets.slice(0, safeLimit)`. -/
def gammaTopMarkets (limit : JSNum) (events : List GammaEvent) :
    List FlatMarket :=
  (flattenEvents events).take (gammaSafeLimit limit).toNat

/-! ## HTTP auth middleware (`server.ts` lines 14-33) -/

/-- Outcome of the authentication middleware for one request: hand the
request to the matched endpoint handler via `next()`, or reject it before any
handler runs with status 500 or 401. -/
inductive AuthOutcome
  | reachHandler
  | status500
  | status401
deriving DecidableEq

/-- The `"/health"` path, the single route exempt from authentication. -/
def healthPath : JStr := ['/', 'h', 'e', 'a', 'l', 't', 'h']

/-- Embeds `EXECUTOR_API_TOKEN = (process.env.EXECUTOR_API_TOKEN || "").trim()`
(line 14); `raw` is the environment variable, `none` when unset. -/
def envExecutorToken (raw : Option JStr) : JStr :=
  trimList (raw.getD [])

/-- Embeds the authentication middleware (lines 16-29), which express runs
before every route handler: requests to `/health` pass straight through; with
no configured token every other request gets status 500; with a configured
token a request whose `x-executor-token` header (`hdr`, `none` when absent)
is not exactly the token gets status 401; otherwise `next()` is called and
the matched endpoint handler runs. -/
def authMiddleware (cfg : JStr) (path : JStr) (hdr : Option JStr) :
    AuthOutcome :=
  if path = healthPath then AuthOutcome.reachHandler
  else if cfg = [] then AuthOutcome.status500
  else if hdr = some cfg then AuthOutcome.reachHandler
  else AuthOutcome.status401

/-! ## Theorems -/

/-- On a credential-cache miss, `getApiCreds` invokes the remote derivation
endpoint exactly once, whatever the endpoint answers. -/
theorem getApiCreds_remoteCount_of_miss (keccak : KeccakFn) (m : JStr)
    (remote : Option RawCreds) (phone : JStr) (s : ExecState)
    (hmiss : s.apiCredsCache phone = none) :
    (getApiCreds keccak m remote phone s).2.remoteCount = s.remoteCount + 1 := by
  cases remote with
  | none => simp [getApiCreds, hmiss, getThirdwebSigner]
  | some raw =>
      cases hc : coerceApiCreds (some raw) with
      | error e => simp [getApiCreds, hmiss, getThirdwebSigner, hc]
      | ok c => simp [getApiCreds, hmiss, getThirdwebSigner, hc]

/-- On a credential-cache hit, `getApiCreds` returns the cached credential and
leaves the state unchanged, never touching the remote endpoint. -/
theorem getApiCreds_hit (keccak : KeccakFn) (m : JStr)
    (remote : Option RawCreds) (phone : JStr) (s : ExecState) (c : ApiCreds)
    (hhit : s.apiCredsCache phone = some c) :
    getApiCreds keccak m remote phone s = (Except.ok c, s) := by
  simp [getApiCreds, hhit]

/-- C1: given tenant balance at or above the threshold, `ensureGasBalance`
performs no transfer and succeeds; given tenant balance strictly below the
threshold and a master balance covering the top-up amount, it performs exactly
one transfer of the configured top-up amount from the master account to the
tenant address. -/
theorem ensureGasBalance_threshold (s : GasState) :
    (MATIC_TOP_UP_THRESHOLD_WEI ≤ s.userBalance →
        ensureGasBalance s = (s, Except.ok [])) ∧
    (s.userBalance < MATIC_TOP_UP_THRESHOLD_WEI →
        MATIC_TOP_UP_AMOUNT_WEI ≤ s.masterBalance →
        ensureGasBalance s =
          ({ userBalance := s.userBalance + MATIC_TOP_UP_AMOUNT_WEI,
             masterBalance := s.masterBalance - MATIC_TOP_UP_AMOUNT_WEI },
           Except.ok [MATIC_TOP_UP_AMOUNT_WEI])) := by
  constructor
  · intro h
    simp [ensureGasBalance, Nat.not_lt.mpr h]
  · intro h1 h2
    simp [ensureGasBalance, h1, Nat.not_lt.mpr h2]

/-- Witness for C1 at the exact threshold boundary: balance = threshold gives
no transfer, balance = threshold - 1 wei with a funded master gives one
transfer of the top-up amount. -/
theorem ensureGasBalance_threshold_witness :
    (MATIC_TOP_UP_THRESHOLD_WEI ≤ (100000000000000000 : Nat) ∧
      ensureGasBalance ⟨100000000000000000, 0⟩ =
        (⟨100000000000000000, 0⟩, Except.ok [])) ∧
    ((99999999999999999 : Nat) < MATIC_TOP_UP_THRESHOLD_WEI ∧
      MATIC_TOP_UP_AMOUNT_WEI ≤ (1000000000000000000 : Nat) ∧
      ensureGasBalance ⟨99999999999999999, 1000000000000000000⟩ =
        (⟨99999999999999999 + MATIC_TOP_UP_AMOUNT_WEI,
          1000000000000000000 - MATIC_TOP_UP_AMOUNT_WEI⟩,
         Except.ok [MATIC_TOP_UP_AMOUNT_WEI])) :=
  ⟨⟨by decide, (ensureGasBalance_threshold _).1 (by decide)⟩,
   ⟨by decide, by decide,
    (ensureGasBalance_threshold _).2 (by decide) (by decide)⟩⟩

/-- C2: with tenant balance below the threshold and master balance below the
top-up amount, `ensureGasBalance` fails with `InsufficientMasterFunds`,
performs no transfer, and leaves both balances unchanged. -/
theorem ensureGasBalance_insufficient_master (s : GasState)
    (h1 : s.userBalance < MATIC_TOP_UP_THRESHOLD_WEI)
    (h2 : s.masterBalance < MATIC_TOP_UP_AMOUNT_WEI) :
    ensureGasBalance s = (s, Except.error GasError.InsufficientMasterFunds) := by
  simp [ensureGasBalance, h1, h2]

/-- C3, counterexample: the claim says the key-derivation logic executes at
most once per tenant across N calls of `getThirdwebSigner`; after two calls
for the same tenant starting from the initial state, the derivation counter
is 2, which is not at most 1 — `getThirdwebSigner` consults no cache. -/
theorem getThirdwebSigner_derives_every_call_cex :
    (getThirdwebSigner keccakModel [Char.ofNat 109] [Char.ofNat 112]
        ((getThirdwebSigner keccakModel [Char.ofNat 109] [Char.ofNat 112]
          initialExecState).2)).2.deriveCount = 2 ∧
    ¬((2 : Nat) ≤ 1) := by
  exact ⟨rfl, by decide⟩

/-- C3, amended: repeated signer retrieval resolves the same address on every
call for a tenant, but only `getSDKForUser` caches — it derives at most once
per tenant and a second call returns the cached SDK with the state unchanged —
while `getThirdwebSigner` performs a fresh derivation on every call, its
stability coming from determinism of the derivation rather than caching. -/
theorem signer_retrieval_amended (keccak : KeccakFn)
    (addrOf : Fin (2 ^ 256) → JStr) (m p : JStr) (s s' : ExecState) :
    ((getThirdwebSigner keccak m p s).1 = (getThirdwebSigner keccak m p s').1) ∧
    (walletGetAddress addrOf (getThirdwebSigner keccak m p s).1 =
      walletGetAddress addrOf (getThirdwebSigner keccak m p s').1) ∧
    ((getThirdwebSigner keccak m p s).2.deriveCount = s.deriveCount + 1) ∧
    ((getSDKForUser keccak m p ((getSDKForUser keccak m p s).2)).1 =
        (getSDKForUser keccak m p s).1 ∧
      (getSDKForUser keccak m p ((getSDKForUser keccak m p s).2)).2 =
        (getSDKForUser keccak m p s).2 ∧
      (getSDKForUser keccak m p s).2.deriveCount ≤ s.deriveCount + 1) := by
  refine ⟨rfl, rfl, rfl, ?_⟩
  cases h : s.sdkCache p with
  | some v =>
      simp [getSDKForUser, h]
  | none =>
      simp [getSDKForUser, h]

/-- C4: the key derivation is deterministic and pure — for any master secret
and tenant identifier it returns the same 32-byte material on every call,
`getThirdwebSigner` built on it returns the same wallet whatever the cache
state (hence the same address across process restarts), and running it leaves
both shared caches untouched. -/
theorem deriveUserPrivateKey_deterministic (keccak : KeccakFn) (m p : JStr)
    (s s' : ExecState) :
    (deriveUserPrivateKey keccak m p = deriveUserPrivateKey keccak m p) ∧
    ((deriveUserPrivateKey keccak m p).val < 2 ^ 256) ∧
    ((getThirdwebSigner keccak m p s).1 = (getThirdwebSigner keccak m p s').1) ∧
    ((getThirdwebSigner keccak m p s).2.sdkCache = s.sdkCache ∧
      (getThirdwebSigner keccak m p s).2.apiCredsCache = s.apiCredsCache) :=
  ⟨rfl, (deriveUserPrivateKey keccak m p).isLt, rfl, rfl, rfl⟩

/-- C5: if the remote derivation fails on attempt 1 — by transport failure or
by a malformed response — the credentials cache holds no entry for the tenant
afterwards, and attempt 2 invokes the remote endpoint again; if attempt 1
succeeds, the result is cached and attempt 2 returns the cached credential
with the state (in particular the remote-call counter) unchanged. -/
theorem getApiCreds_cache_retry (keccak : KeccakFn) (m phone : JStr)
    (s : ExecState) (raw rawBad : RawCreds) (creds : ApiCreds) (e : CredError)
    (r2 r2' : Option RawCreds)
    (hmiss : s.apiCredsCache phone = none)
    (hok : coerceApiCreds (some raw) = Except.ok creds)
    (hbad : coerceApiCreds (some rawBad) = Except.error e) :
    ((getApiCreds keccak m none phone s).2.apiCredsCache phone = none ∧
      (getApiCreds keccak m r2 phone
          ((getApiCreds keccak m none phone s).2)).2.remoteCount =
        (getApiCreds keccak m none phone s).2.remoteCount + 1) ∧
    ((getApiCreds keccak m (some rawBad) phone s).2.apiCredsCache phone = none) ∧
    ((getApiCreds keccak m (some raw) phone s).1 = Except.ok creds ∧
      (getApiCreds keccak m (some raw) phone s).2.apiCredsCache phone =
        some creds ∧
      getApiCreds keccak m r2' phone
          ((getApiCreds keccak m (some raw) phone s).2) =
        (Except.ok creds, (getApiCreds keccak m (some raw) phone s).2)) := by
  have hafter : (getApiCreds keccak m none phone s).2.apiCredsCache phone = none := by
    simp [getApiCreds, hmiss, getThirdwebSigner]
  refine ⟨⟨hafter, getApiCreds_remoteCount_of_miss _ _ _ _ _ hafter⟩, ?_, ?_⟩
  · simp [getApiCreds, hmiss, getThirdwebSigner, hbad]
  · have h1 : (getApiCreds keccak m (some raw) phone s).1 = Except.ok creds := by
      simp [getApiCreds, hmiss, getThirdwebSigner, hok]
    have h2 : (getApiCreds keccak m (some raw) phone s).2.apiCredsCache phone =
        some creds := by
      simp [getApiCreds, hmiss, getThirdwebSigner, hok]
    exact ⟨h1, h2, getApiCreds_hit _ _ _ _ _ _ h2⟩

/-- Witness for C5 at a concrete tenant and a concrete well-formed and a
concrete malformed remote response, starting from the initial state. -/
theorem getApiCreds_cache_retry_witness :
    (initialExecState.apiCredsCache [Char.ofNat 112] = none ∧
      coerceApiCreds (some ⟨some [Char.ofNat 107], none,
          some [Char.ofNat 115], some [Char.ofNat 113]⟩) =
        Except.ok ⟨[Char.ofNat 107],
          [Char.ofNat 115, Char.ofNat 61, Char.ofNat 61, Char.ofNat 61],
          [Char.ofNat 113]⟩ ∧
      coerceApiCreds (some ⟨none, none, none, none⟩) =
        Except.error CredError.missingKey) ∧
    (((getApiCreds keccakModel [Char.ofNat 109] none [Char.ofNat 112]
          initialExecState).2.apiCredsCache [Char.ofNat 112] = none ∧
      (getApiCreds keccakModel [Char.ofNat 109] none [Char.ofNat 112]
          ((getApiCreds keccakModel [Char.ofNat 109] none [Char.ofNat 112]
            initialExecState).2)).2.remoteCount =
        (getApiCreds keccakModel [Char.ofNat 109] none [Char.ofNat 112]
          initialExecState).2.remoteCount + 1) ∧
    ((getApiCreds keccakModel [Char.ofNat 109] (some ⟨none, none, none, none⟩)
        [Char.ofNat 112] initialExecState).2.apiCredsCache [Char.ofNat 112] =
      none) ∧
    ((getApiCreds keccakModel [Char.ofNat 109]
        (some ⟨some [Char.ofNat 107], none, some [Char.ofNat 115],
          some [Char.ofNat 113]⟩) [Char.ofNat 112] initialExecState).1 =
        Except.ok ⟨[Char.ofNat 107],
          [Char.ofNat 115, Char.ofNat 61, Char.ofNat 61, Char.ofNat 61],
          [Char.ofNat 113]⟩ ∧
      (getApiCreds keccakModel [Char.ofNat 109]
          (some ⟨some [Char.ofNat 107], none, some [Char.ofNat 115],
            some [Char.ofNat 113]⟩) [Char.ofNat 112]
          initialExecState).2.apiCredsCache [Char.ofNat 112] =
        some ⟨[Char.ofNat 107],
          [Char.ofNat 115, Char.ofNat 61, Char.ofNat 61, Char.ofNat 61],
          [Char.ofNat 113]⟩ ∧
      getApiCreds keccakModel [Char.ofNat 109] none [Char.ofNat 112]
          ((getApiCreds keccakModel [Char.ofNat 109]
            (some ⟨some [Char.ofNat 107], none, some [Char.ofNat 115],
              some [Char.ofNat 113]⟩) [Char.ofNat 112] initialExecState).2) =
        (Except.ok ⟨[Char.ofNat 107],
            [Char.ofNat 115, Char.ofNat 61, Char.ofNat 61, Char.ofNat 61],
            [Char.ofNat 113]⟩,
          (getApiCreds keccakModel [Char.ofNat 109]
            (some ⟨some [Char.ofNat 107], none, some [Char.ofNat 115],
              some [Char.ofNat 113]⟩) [Char.ofNat 112]
            initialExecState).2))) :=
  ⟨⟨rfl, rfl, rfl⟩,
   getApiCreds_cache_retry keccakModel [Char.ofNat 109] [Char.ofNat 112]
     initialExecState
     ⟨some [Char.ofNat 107], none, some [Char.ofNat 115], some [Char.ofNat 113]⟩
     ⟨none, none, none, none⟩
     ⟨[Char.ofNat 107],
       [Char.ofNat 115, Char.ofNat 61, Char.ofNat 61, Char.ofNat 61],
       [Char.ofNat 113]⟩
     CredError.missingKey none none rfl rfl rfl⟩

/-- C6, code evaluated at the failing input: a freshly constructed
`ThirdwebSigner` exposes the public synchronous `address` field as the empty
string and the private `_address` field as `null` until the background
promise scheduled by the constructor completes, so a consumer reading the
address between construction and the first resolution observes an empty
value. -/
theorem thirdwebSigner_address_empty_at_construction :
    ((mkThirdwebSigner keccakModel [Char.ofNat 109] [Char.ofNat 112]
        initialExecState).1.addressSync = []) ∧
    ((mkThirdwebSigner keccakModel [Char.ofNat 109] [Char.ofNat 112]
        initialExecState).1.addressResolved = none) :=
  ⟨rfl, rfl⟩

/-- C8: a `getApiCreds` run for tenant `p1` — in particular a failing one that
deletes `p1`'s cache entry — leaves the credential-cache entry and the
SDK-cache entry of every other tenant `p2` unchanged. -/
theorem getApiCreds_tenant_frame (keccak : KeccakFn) (m p1 p2 : JStr)
    (remote : Option RawCreds) (s : ExecState) (hne : p2 ≠ p1) :
    (getApiCreds keccak m remote p1 s).2.apiCredsCache p2 =
      s.apiCredsCache p2 ∧
    (getApiCreds keccak m remote p1 s).2.sdkCache p2 = s.sdkCache p2 := by
  cases hhit : s.apiCredsCache p1 with
  | some c => simp [getApiCreds, hhit]
  | none =>
      cases remote with
      | none => simp [getApiCreds, hhit, getThirdwebSigner, hne]
      | some raw =>
          cases hc : coerceApiCreds (some raw) with
          | error e => simp [getApiCreds, hhit, getThirdwebSigner, hc, hne]
          | ok c => simp [getApiCreds, hhit, getThirdwebSigner, hc, hne]

/-- Witness for C8: a transport failure for tenant "p" leaves the cache
entries of the distinct tenant "q" unchanged, from the initial state. -/
theorem getApiCreds_tenant_frame_witness :
    ([Char.ofNat 113] : JStr) ≠ [Char.ofNat 112] ∧
    ((getApiCreds keccakModel [Char.ofNat 109] none [Char.ofNat 112]
        initialExecState).2.apiCredsCache [Char.ofNat 113] =
      initialExecState.apiCredsCache [Char.ofNat 113] ∧
     (getApiCreds keccakModel [Char.ofNat 109] none [Char.ofNat 112]
        initialExecState).2.sdkCache [Char.ofNat 113] =
      initialExecState.sdkCache [Char.ofNat 113]) :=
  ⟨by decide,
   getApiCreds_tenant_frame keccakModel [Char.ofNat 109] [Char.ofNat 112]
     [Char.ofNat 113] none initialExecState (by decide)⟩

/-- Witness for C2: an empty tenant wallet and an empty master wallet. -/
theorem ensureGasBalance_insufficient_master_witness :
    (0 : Nat) < MATIC_TOP_UP_THRESHOLD_WEI ∧
    (0 : Nat) < MATIC_TOP_UP_AMOUNT_WEI ∧
    ensureGasBalance ⟨0, 0⟩ =
      (⟨0, 0⟩, Except.error GasError.InsufficientMasterFunds) :=
  ⟨by decide, by decide,
   ensureGasBalance_insufficient_master ⟨0, 0⟩ (by decide) (by decide)⟩

/-- C9: for every request whose path is not "/health", the middleware rejects
the request before any endpoint handler runs — status 500 when no executor
token is configured (the environment value trims to empty), status 401 when
the x-executor-token header is absent or differs from the configured token —
and only an exactly matching header reaches a handler; every request to
"/health" reaches its handler whatever the header and configuration. -/
theorem authMiddleware_spec (raw : Option JStr) (path : JStr)
    (hdr hdr2 : Option JStr) (hpath : path ≠ healthPath) :
    (envExecutorToken raw = [] →
      authMiddleware (envExecutorToken raw) path hdr = AuthOutcome.status500) ∧
    (envExecutorToken raw ≠ [] → hdr ≠ some (envExecutorToken raw) →
      authMiddleware (envExecutorToken raw) path hdr = AuthOutcome.status401) ∧
    (envExecutorToken raw ≠ [] → hdr = some (envExecutorToken raw) →
      authMiddleware (envExecutorToken raw) path hdr =
        AuthOutcome.reachHandler) ∧
    (authMiddleware (envExecutorToken raw) healthPath hdr2 =
      AuthOutcome.reachHandler) := by
  refine ⟨?_, ?_, ?_, ?_⟩
  · intro h0
    simp [authMiddleware, hpath, h0]
  · intro h0 h1
    simp [authMiddleware, hpath, h0, h1]
  · intro h0 h1
    simp [authMiddleware, hpath, h0, h1]
  · simp [authMiddleware]

/-- Witness for C9 at the path "/x" with the configured token " tok "
(trimming to "tok"): an absent header is rejected with 401, the exact header
reaches the handler, an unset environment token gives 500, and "/health"
always reaches its handler. -/
theorem authMiddleware_spec_witness :
    (['/', 'x'] : JStr) ≠ healthPath ∧
    (envExecutorToken (some [' ', 't', 'o', 'k', ' ']) ≠ [] →
      (none : Option JStr) ≠ some (envExecutorToken (some [' ', 't', 'o', 'k', ' '])) →
      authMiddleware (envExecutorToken (some [' ', 't', 'o', 'k', ' ']))
        ['/', 'x'] none = AuthOutcome.status401) ∧
    (envExecutorToken none = [] →
      authMiddleware (envExecutorToken none) ['/', 'x'] none =
        AuthOutcome.status500) ∧
    (authMiddleware (envExecutorToken (some [' ', 't', 'o', 'k', ' ']))
      healthPath (some ['z']) = AuthOutcome.reachHandler) :=
  ⟨by decide,
   (authMiddleware_spec (some [' ', 't', 'o', 'k', ' ']) ['/', 'x'] none
      (some ['z']) (by decide)).2.1,
   fun h0 => (authMiddleware_spec none ['/', 'x'] none (some ['z'])
      (by decide)).1 h0,
   (authMiddleware_spec (some [' ', 't', 'o', 'k', ' ']) ['/', 'x'] none
      (some ['z']) (by decide)).2.2.2⟩

/-- C10, counterexample: the claim says the limit defaults to 10 whenever the
input is not a positive number, but for the negative input -5 the code
computes Math.max(1, Math.min(50, -5)) = 1, not 10. -/
theorem gammaSafeLimit_negative_cex :
    gammaSafeLimit (JSNum.num (-5)) = 1 ∧ gammaSafeLimit (JSNum.num (-5)) ≠ 10 := by
  constructor <;> decide

/-- C10, amended: `gammaTopMarkets` clamps the limit to the range [1, 50],
defaulting to 10 when the input is non-numeric (NaN) or zero — while a
negative input clamps to 1 rather than defaulting to 10 — and the returned
flattened market list has length at most the clamped limit, in particular
never more than 50 entries. -/
theorem gammaTopMarkets_clamp (limit : JSNum) (events : List GammaEvent) :
    1 ≤ gammaSafeLimit limit ∧
    gammaSafeLimit limit ≤ 50 ∧
    gammaSafeLimit JSNum.nan = 10 ∧
    gammaSafeLimit (JSNum.num 0) = 10 ∧
    (gammaTopMarkets limit events).length ≤ (gammaSafeLimit limit).toNat ∧
    (gammaTopMarkets limit events).length ≤ 50 := by
  have h1 : 1 ≤ gammaSafeLimit limit := le_max_left 1 _
  have h50 : gammaSafeLimit limit ≤ 50 := by
    have : min 50 (jsNumOrTen limit) ≤ 50 := min_le_left _ _
    simp only [gammaSafeLimit]
    omega
  have hlen : (gammaTopMarkets limit events).length ≤
      (gammaSafeLimit limit).toNat := by
    simp only [gammaTopMarkets]
    exact List.length_take_le (gammaSafeLimit limit).toNat (flattenEvents events)
  refine ⟨h1, h50, by decide, by decide, hlen, ?_⟩
  calc (gammaTopMarkets limit events).length
      ≤ (gammaSafeLimit limit).toNat := hlen
    _ ≤ 50 := by omega

/-- The first element of a dropWhile result does not satisfy the dropped
predicate. -/
theorem dropWhile_head?_false (p : Char → Bool) :
    ∀ (l : JStr) (a : Char), (l.dropWhile p).head? = some a → p a = false := by
  intro l
  induction l with
  | nil =>
      intro a h
      simp [List.dropWhile] at h
  | cons b t ih =>
      intro a h
      by_cases hb : p b
      · rw [List.dropWhile_cons_of_pos hb] at h
        exact ih a h
      · rw [List.dropWhile_cons_of_neg hb] at h
        simp at h
        subst h
        simpa using hb

/-- A list whose first element does not satisfy the predicate is left
unchanged by dropWhile. -/
theorem dropWhile_eq_self_of_head? (p : Char → Bool) (l : JStr)
    (h : ∀ a, l.head? = some a → p a = false) : l.dropWhile p = l := by
  cases l with
  | nil => rfl
  | cons a t => exact List.dropWhile_cons_of_neg (by simp [h a rfl])

/-- A nonempty dropWhile result keeps the last element of the input list. -/
theorem dropWhile_getLast?_eq (p : Char → Bool) :
    ∀ (l : JStr), l.dropWhile p ≠ [] →
      (l.dropWhile p).getLast? = l.getLast? := by
  intro l
  induction l with
  | nil =>
      intro h
      simp [List.dropWhile] at h
  | cons b t ih =>
      intro h
      by_cases hb : p b
      · rw [List.dropWhile_cons_of_pos hb] at h ⊢
        rw [ih h]
        cases t with
        | nil => simp [List.dropWhile] at h
        | cons c u => simp [List.getLast?_cons_cons]
      · rw [List.dropWhile_cons_of_neg hb]

/-- A list with non-whitespace boundary characters is left unchanged by the
trim. -/
theorem trimList_eq_self (l : JStr)
    (h1 : ∀ a, l.head? = some a → a.isWhitespace = false)
    (h2 : ∀ a, l.getLast? = some a → a.isWhitespace = false) :
    trimList l = l := by
  unfold trimList
  rw [dropWhile_eq_self_of_head? _ _ h1]
  rw [dropWhile_eq_self_of_head? _ _
    (fun a ha => h2 a (by rwa [List.head?_reverse] at ha))]
  exact List.reverse_reverse l

/-- The first character of a trimmed string is not whitespace. -/
theorem trimList_head?_false (l : JStr) (a : Char)
    (h : (trimList l).head? = some a) : a.isWhitespace = false := by
  unfold trimList at h
  rw [List.head?_reverse] at h
  rcases hemp : (l.dropWhile Char.isWhitespace).reverse.dropWhile
      Char.isWhitespace with _ | ⟨b, u⟩
  · rw [hemp] at h
    simp at h
  · have hne : (l.dropWhile Char.isWhitespace).reverse.dropWhile
        Char.isWhitespace ≠ [] := by
      rw [hemp]
      simp
    rw [dropWhile_getLast?_eq _ _ hne, List.getLast?_reverse] at h
    exact dropWhile_head?_false _ _ _ h

/-- The last character of a trimmed string is not whitespace. -/
theorem trimList_getLast?_false (l : JStr) (a : Char)
    (h : (trimList l).getLast? = some a) : a.isWhitespace = false := by
  unfold trimList at h
  rw [List.getLast?_reverse] at h
  exact dropWhile_head?_false _ _ _ h

/-- A string with no whitespace at all is left unchanged by the trim. -/
theorem trimList_eq_self_of_no_ws (l : JStr)
    (h : ∀ c ∈ l, c.isWhitespace = false) : trimList l = l :=
  trimList_eq_self l (fun a ha => h a (List.mem_of_mem_head? ha))
    (fun a ha => h a (List.mem_of_mem_getLast? ha))

/-- Trimming is idempotent. -/
theorem trimList_idem (l : JStr) : trimList (trimList l) = trimList l :=
  trimList_eq_self _ (trimList_head?_false l) (trimList_getLast?_false l)

/-- The base64 de-URL-safe map sends non-whitespace to non-whitespace. -/
theorem mapB64Char_not_ws (c : Char) (h : c.isWhitespace = false) :
    (mapB64Char c).isWhitespace = false := by
  unfold mapB64Char
  split_ifs with h1 h2
  · decide
  · decide
  · exact h

/-- The base64 de-URL-safe map never produces a URL-safe character. -/
theorem mapB64Char_not_urlsafe (c : Char) :
    mapB64Char c ≠ '-' ∧ mapB64Char c ≠ '_' := by
  unfold mapB64Char
  split_ifs with h1 h2
  · decide
  · decide
  · exact ⟨h1, h2⟩

/-- The base64 de-URL-safe map fixes characters that are not URL-safe. -/
theorem mapB64Char_eq_self (c : Char) (h1 : c ≠ '-') (h2 : c ≠ '_') :
    mapB64Char c = c := by
  unfold mapB64Char
  rw [if_neg h1, if_neg h2]

/-- The base64 de-URL-safe map is idempotent. -/
theorem mapB64Char_idem (c : Char) :
    mapB64Char (mapB64Char c) = mapB64Char c :=
  mapB64Char_eq_self _ (mapB64Char_not_urlsafe c).1 (mapB64Char_not_urlsafe c).2

/-- Standard base64 characters are not whitespace. -/
theorem stdB64_not_ws (c : Char) (h : isStdB64Char c = true) :
    c.isWhitespace = false := by
  simp [isStdB64Char] at h
  rcases h with (h | h) | h
  · by_cases hw : c.isWhitespace = true
    · exfalso
      simp [Char.isWhitespace] at hw
      rcases hw with ((h1 | h1) | h1) | h1 <;> subst h1 <;>
        exact absurd h (by decide)
    · simpa using hw
  · subst h
    decide
  · subst h
    decide

/-- Standard base64 characters are fixed by the de-URL-safe map. -/
theorem stdB64_mapB64_eq (c : Char) (h : isStdB64Char c = true) :
    mapB64Char c = c := by
  simp [isStdB64Char] at h
  rcases h with (h | h) | h
  · apply mapB64Char_eq_self
    · rintro rfl
      exact absurd h (by decide)
    · rintro rfl
      exact absurd h (by decide)
  · subst h
    decide
  · subst h
    decide

/-- Re-encoding a standard base64 character as URL-safe and normalizing back
is the identity. -/
theorem stdB64_roundtrip (c : Char) (h : isStdB64Char c = true) :
    mapB64Char (toUrlSafeChar c) = c := by
  simp [isStdB64Char] at h
  rcases h with (h | h) | h
  · have h1 : c ≠ '+' := by
      rintro rfl
      exact absurd h (by decide)
    have h2 : c ≠ '/' := by
      rintro rfl
      exact absurd h (by decide)
    unfold toUrlSafeChar
    rw [if_neg h1, if_neg h2]
    apply mapB64Char_eq_self
    · rintro rfl
      exact absurd h (by decide)
    · rintro rfl
      exact absurd h (by decide)
  · subst h
    decide
  · subst h
    decide

/-- The URL-safe re-encoding of a standard base64 character is not
whitespace. -/
theorem stdB64_toUrl_not_ws (c : Char) (h : isStdB64Char c = true) :
    (toUrlSafeChar c).isWhitespace = false := by
  unfold toUrlSafeChar
  split_ifs with h1 h2
  · decide
  · decide
  · exact stdB64_not_ws c h

/-- Mapping commutes with getLast? on character lists. -/
theorem getLast?_map_char (f : Char → Char) (l : JStr) :
    (l.map f).getLast? = l.getLast?.map f := by
  rw [← List.head?_reverse, ← List.map_reverse, List.head?_map,
    List.head?_reverse]

/-- The normalized secret always has length a multiple of four. -/
theorem normalizeBase64_length_mod (s : JStr) :
    (normalizeBase64ForAtob s).length % 4 = 0 := by
  unfold normalizeBase64ForAtob
  rw [List.length_append, List.length_replicate]
  omega

/-- The normalized secret never contains a URL-safe character. -/
theorem normalizeBase64_no_urlsafe (s : JStr) :
    ∀ c ∈ normalizeBase64ForAtob s, ¬(c = '-' ∨ c = '_') := by
  intro c hc
  unfold normalizeBase64ForAtob at hc
  rcases List.mem_append.mp hc with h | h
  · rcases List.mem_map.mp h with ⟨b, _, rfl⟩
    exact fun h' => h'.elim (mapB64Char_not_urlsafe b).1 (mapB64Char_not_urlsafe b).2
  · rw [List.eq_of_mem_replicate h]
    decide

/-- The normalized secret is already trimmed. -/
theorem trimList_normalize (s : JStr) :
    trimList (normalizeBase64ForAtob s) = normalizeBase64ForAtob s := by
  apply trimList_eq_self
  · intro a ha
    rcases htr : trimList s with _ | ⟨b, u⟩
    · rw [normalizeBase64ForAtob, htr] at ha
      simp at ha
    · rw [normalizeBase64ForAtob, htr] at ha
      simp only [List.map_cons, List.cons_append, List.head?_cons,
        Option.some.injEq] at ha
      rw [← ha]
      exact mapB64Char_not_ws b
        (trimList_head?_false s b (by rw [htr]; rfl))
  · intro a ha
    by_cases hk : ((trimList s).map mapB64Char).length % 4 = 0
    · rw [normalizeBase64ForAtob, hk] at ha
      simp only [Nat.sub_zero, Nat.mod_self, List.replicate_zero,
        List.append_nil] at ha
      rw [getLast?_map_char] at ha
      rcases Option.map_eq_some'.mp ha with ⟨b, hb, rfl⟩
      exact mapB64Char_not_ws b (trimList_getLast?_false s b hb)
    · have hkpos : (4 - ((trimList s).map mapB64Char).length % 4) % 4 ≠ 0 := by
        omega
      rw [normalizeBase64ForAtob, List.getLast?_append,
        List.getLast?_replicate, if_neg hkpos] at ha
      simp at ha
      rw [← ha]
      decide

/-- The de-URL-safe map leaves a normalized secret unchanged. -/
theorem normalizeBase64_map_eq_self (s : JStr) :
    (normalizeBase64ForAtob s).map mapB64Char = normalizeBase64ForAtob s := by
  have h : ∀ c ∈ normalizeBase64ForAtob s, mapB64Char c = id c := by
    intro c hc
    unfold normalizeBase64ForAtob at hc
    rcases List.mem_append.mp hc with h | h
    · rcases List.mem_map.mp h with ⟨b, _, rfl⟩
      exact mapB64Char_idem b
    · rw [List.eq_of_mem_replicate h]
      decide
  rw [List.map_congr_left h, List.map_id]

/-- A string that is trimmed, free of URL-safe characters and of length a
multiple of four is a fixed point of the base64 normalization. -/
theorem normalize_eq_self (l : JStr) (ht : trimList l = l)
    (hm : l.map mapB64Char = l) (hl : l.length % 4 = 0) :
    normalizeBase64ForAtob l = l := by
  unfold normalizeBase64ForAtob
  rw [ht, hm, hl]
  simp

/-- The base64 normalization is idempotent. -/
theorem normalizeBase64_idem (s : JStr) :
    normalizeBase64ForAtob (normalizeBase64ForAtob s) =
      normalizeBase64ForAtob s :=
  normalize_eq_self _ (trimList_normalize s) (normalizeBase64_map_eq_self s)
    (normalizeBase64_length_mod s)

/-- A standard padded base64 string is already trimmed. -/
theorem trimList_stdpad (body : JStr) (padk : Nat)
    (hb : ∀ c ∈ body, isStdB64Char c = true) :
    trimList (body ++ List.replicate padk '=') =
      body ++ List.replicate padk '=' := by
  apply trimList_eq_self_of_no_ws
  intro c hc
  rcases List.mem_append.mp hc with h | h
  · exact stdB64_not_ws c (hb c h)
  · rw [List.eq_of_mem_replicate h]
    decide

/-- The URL-safe rendering of a base64 body is already trimmed. -/
theorem trimList_urlsafe (body : JStr)
    (hb : ∀ c ∈ body, isStdB64Char c = true) :
    trimList (body.map toUrlSafeChar) = body.map toUrlSafeChar := by
  apply trimList_eq_self_of_no_ws
  intro c hc
  rcases List.mem_map.mp hc with ⟨b, hbm, rfl⟩
  exact stdB64_toUrl_not_ws b (hb b hbm)

/-- Normalizing a standard padded base64 string is the identity. -/
theorem normalize_std (body : JStr) (padk : Nat)
    (hlen : (body.length + padk) % 4 = 0)
    (hb : ∀ c ∈ body, isStdB64Char c = true) :
    normalizeBase64ForAtob (body ++ List.replicate padk '=') =
      body ++ List.replicate padk '=' := by
  apply normalize_eq_self
  · exact trimList_stdpad body padk hb
  · have h : ∀ c ∈ body ++ List.replicate padk '=', mapB64Char c = id c := by
      intro c hc
      rcases List.mem_append.mp hc with h | h
      · exact stdB64_mapB64_eq c (hb c h)
      · rw [List.eq_of_mem_replicate h]
        decide
    rw [List.map_congr_left h, List.map_id]
  · rw [List.length_append, List.length_replicate]
    exact hlen

/-- Normalizing the URL-safe unpadded rendering of a base64 body restores the
standard padded string. -/
theorem normalize_url (body : JStr) (padk : Nat) (hpad : padk < 4)
    (hlen : (body.length + padk) % 4 = 0)
    (hb : ∀ c ∈ body, isStdB64Char c = true) :
    normalizeBase64ForAtob (body.map toUrlSafeChar) =
      body ++ List.replicate padk '=' := by
  unfold normalizeBase64ForAtob
  rw [trimList_urlsafe body hb, List.map_map]
  have hm : body.map (mapB64Char ∘ toUrlSafeChar) = body := by
    have h : ∀ c ∈ body, (mapB64Char ∘ toUrlSafeChar) c = id c := by
      intro c hc
      exact stdB64_roundtrip c (hb c hc)
    rw [List.map_congr_left h, List.map_id]
  rw [hm]
  have hcount : (4 - body.length % 4) % 4 = padk := by omega
  rw [hcount]

/-- A string whose trim is nonempty has a nonempty normalization. -/
theorem normalize_ne_nil (s : JStr) (h : trimList s ≠ []) :
    normalizeBase64ForAtob s ≠ [] := by
  unfold normalizeBase64ForAtob
  intro hcon
  rcases List.append_eq_nil.mp hcon with ⟨h1, _⟩
  exact h (List.map_eq_nil_iff.mp h1)

/-- Unfolding of `coerceApiCreds` on a response that uses the canonical `key`
field. -/
theorem coerce_key_fields (kk sec pp : JStr) :
    coerceApiCreds (some ⟨some kk, none, some sec, some pp⟩) =
      (if trimList kk = [] then Except.error CredError.missingKey
       else if trimList sec = [] then Except.error CredError.missingSecret
       else if trimList pp = [] then Except.error CredError.missingPassphrase
       else Except.ok
         ⟨trimList kk, normalizeBase64ForAtob sec, trimList pp⟩) := rfl

/-- Unfolding of `coerceApiCreds` on a response that uses the alternate
`apiKey` field. -/
theorem coerce_apiKey_fields (kk sec pp : JStr) :
    coerceApiCreds (some ⟨none, some kk, some sec, some pp⟩) =
      (if trimList kk = [] then Except.error CredError.missingKey
       else if trimList sec = [] then Except.error CredError.missingSecret
       else if trimList pp = [] then Except.error CredError.missingPassphrase
       else Except.ok
         ⟨trimList kk, normalizeBase64ForAtob sec, trimList pp⟩) := rfl

/-- C7: credential normalization is canonicalizing.  A remote response using
the alternate key-name field (`apiKey`) and the URL-safe unpadded rendering
of a base64 secret coerces to exactly the same `ApiCreds` value as a response
using the canonical `key` field and the standard padded rendering; every
normalized secret contains no URL-safe character and has length a multiple of
four; and coercing an already-coerced response again is the identity. -/
theorem coerceApiCreds_normalization (k pp body : JStr) (padk : Nat)
    (s sec : JStr) (hpad : padk < 4)
    (hlen : (body.length + padk) % 4 = 0)
    (hb : ∀ c ∈ body, isStdB64Char c = true)
    (hk : trimList k ≠ []) (hsec : trimList sec ≠ [])
    (hpp : trimList pp ≠ []) :
    (coerceApiCreds (some ⟨none, some k,
        some (body.map toUrlSafeChar), some pp⟩) =
      coerceApiCreds (some ⟨some k, none,
        some (body ++ List.replicate padk '='), some pp⟩)) ∧
    ((normalizeBase64ForAtob s).length % 4 = 0 ∧
      ∀ c ∈ normalizeBase64ForAtob s, ¬(c = '-' ∨ c = '_')) ∧
    (coerceApiCreds (some ⟨some k, none, some sec, some pp⟩) =
        Except.ok ⟨trimList k, normalizeBase64ForAtob sec, trimList pp⟩ ∧
      coerceApiCreds (some ⟨some (trimList k), none,
          some (normalizeBase64ForAtob sec), some (trimList pp)⟩) =
        Except.ok ⟨trimList k, normalizeBase64ForAtob sec, trimList pp⟩) := by
  refine ⟨?_, ⟨normalizeBase64_length_mod s, normalizeBase64_no_urlsafe s⟩,
    ?_, ?_⟩
  · rw [coerce_apiKey_fields, coerce_key_fields,
      trimList_urlsafe body hb, trimList_stdpad body padk hb]
    rcases body with _ | ⟨b, bt⟩
    · have hpk : padk = 0 := by
        simp at hlen
        omega
      subst hpk
      simp
    · have hu : ((b :: bt).map toUrlSafeChar : JStr) ≠ [] := by simp
      have hs2 : (b :: bt ++ List.replicate padk '=' : JStr) ≠ [] := by simp
      rw [if_neg hk, if_neg hk, if_neg hu, if_neg hs2,
        normalize_url (b :: bt) padk hpad hlen hb,
        normalize_std (b :: bt) padk hlen hb]
  · rw [coerce_key_fields, if_neg hk, if_neg hsec, if_neg hpp]
  · rw [coerce_key_fields, trimList_idem k, trimList_normalize sec,
      trimList_idem pp, normalizeBase64_idem sec,
      if_neg hk, if_neg (normalize_ne_nil sec hsec), if_neg hpp]

/-- Witness for C7 at the base64 body "AB+/CD" with two padding characters
(standard form "AB+/CD==", URL-safe form "AB-_CD"), key "k", secret "s" and
passphrase "p". -/
theorem coerceApiCreds_normalization_witness :
    ((2 : Nat) < 4 ∧
      ((['A', 'B', '+', '/', 'C', 'D'] : JStr).length + 2) % 4 = 0 ∧
      (∀ c ∈ (['A', 'B', '+', '/', 'C', 'D'] : JStr), isStdB64Char c = true) ∧
      trimList ['k'] ≠ [] ∧ trimList ['s'] ≠ [] ∧ trimList ['p'] ≠ []) ∧
    ((coerceApiCreds (some ⟨none, some ['k'],
          some ((['A', 'B', '+', '/', 'C', 'D'] : JStr).map toUrlSafeChar),
          some ['p']⟩) =
        coerceApiCreds (some ⟨some ['k'], none,
          some ((['A', 'B', '+', '/', 'C', 'D'] : JStr) ++
            List.replicate 2 '='), some ['p']⟩)) ∧
      ((normalizeBase64ForAtob ['-']).length % 4 = 0 ∧
        ∀ c ∈ normalizeBase64ForAtob ['-'], ¬(c = '-' ∨ c = '_')) ∧
      (coerceApiCreds (some ⟨some ['k'], none, some ['s'], some ['p']⟩) =
          Except.ok ⟨trimList ['k'], normalizeBase64ForAtob ['s'],
            trimList ['p']⟩ ∧
        coerceApiCreds (some ⟨some (trimList ['k']), none,
            some (normalizeBase64ForAtob ['s']), some (trimList ['p'])⟩) =
          Except.ok ⟨trimList ['k'], normalizeBase64ForAtob ['s'],
            trimList ['p']⟩)) :=
  ⟨⟨by decide, by decide, by decide, by decide, by decide, by decide⟩,
   coerceApiCreds_normalization ['k'] ['p'] ['A', 'B', '+', '/', 'C', 'D'] 2
     ['-'] ['s'] (by decide) (by decide) (by decide) (by decide) (by decide)
     (by decide)⟩
